import Mathlib

set_option maxHeartbeats 1000000

/- Shallow embedding of the zephyr-ipmi polling and alert engine:
   backend/app/services/scheduler.py and backend/app/services/ipmi.py. -/

/-- A fan zone entry from `fan_defaults["zones"]`: temperature threshold and target RPM. -/
structure Zone where
  temp_threshold : ℚ
  target_rpm : Int
deriving DecidableEq

/-- A per-fan override row (models.server.FanOverride); `fan_identifier` is a non-null
string in the database, the scheduler skips overrides whose identifier is empty. -/
structure FanOverride where
  fan_identifier : String
  min_rpm : Option Int
  max_rpm : Option Int
deriving DecidableEq

/-- The fields of models.server.ServerTarget that the scheduler reads.  Timestamps are
rationals measured in minutes; `fan_defaults` models the JSON dict's "zones" key
(`none` covers both a missing dict and a missing key). -/
structure ServerTarget where
  id : Nat
  name : String
  vendor : String
  fan_defaults : Option (List Zone)
  fan_overrides : List FanOverride
  notification_channel_ids : List Nat
  alert_config : List (String × Bool)
  offline_alert_threshold_minutes : Int
  last_successful_poll : Option ℚ
  created_at : ℚ
deriving DecidableEq

/-- `sorted(zones, key=lambda z: z.get('temp_threshold', 0))`: a stable sort by
threshold (insertion sort is extensionally equal to Python's stable sort here). -/
def sort_zones (zones : List Zone) : List Zone :=
  zones.insertionSort (fun a b => a.temp_threshold ≤ b.temp_threshold)

/-- The zone-selection loop of `_calculate_target_rpm`, including the source's use of
`sorted_zones.index(zone)` (first index of an equal element) rather than the position
of the iteration. -/
def zone_loop (sorted_zones : List Zone) (cpu_temp : ℚ) : List Zone → Option Int
  | [] => none
  | zone :: rest =>
    if sorted_zones.findIdx (fun w => decide (w = zone)) = 0 then
      if cpu_temp ≤ zone.temp_threshold then some zone.target_rpm
      else zone_loop sorted_zones cpu_temp rest
    else
      if (sorted_zones.getD (sorted_zones.findIdx (fun w => decide (w = zone)) - 1)
            zone).temp_threshold < cpu_temp ∧ cpu_temp ≤ zone.temp_threshold then
        some zone.target_rpm
      else zone_loop sorted_zones cpu_temp rest

/-- `_calculate_target_rpm(server, cpu_temp)` from scheduler.py. -/
def calculate_target_rpm (server : ServerTarget) (cpu_temp : ℚ) : Option Int :=
  match server.fan_defaults with
  | none => none
  | some zones =>
    if zones = [] then none
    else
      let sorted_zones := sort_zones zones
      let target_rpm :=
        match zone_loop sorted_zones cpu_temp sorted_zones with
        | some t => some t
        | none => (sorted_zones.getLast?).map Zone.target_rpm
      match target_rpm with
      | some t => if t = 0 then some 0 else some t
      | none => none

/-- `_get_first_zone_threshold(server)` from scheduler.py: the second-lowest zone
threshold, `none` when fewer than two zones are configured. -/
def get_first_zone_threshold (server : ServerTarget) : Option ℚ :=
  match server.fan_defaults with
  | none => none
  | some zones =>
    if zones = [] ∨ zones.length < 2 then none
    else some (((sort_zones zones).getD 1 ⟨0, 0⟩).temp_threshold)

/-- The fan-curve selection as the specification words it: the first zone in ascending
threshold order whose threshold is at or above the temperature; above every
threshold, the highest zone. -/
def spec_zone_rpm (zones : List Zone) (t : ℚ) : Option Int :=
  match zones.find? (fun z => decide (t ≤ z.temp_threshold)) with
  | some z => some z.target_rpm
  | none => zones.getLast?.map Zone.target_rpm

example :
    zone_loop [⟨50, 1800⟩, ⟨52, 3500⟩, ⟨70, 5000⟩] 60 [⟨50, 1800⟩, ⟨52, 3500⟩, ⟨70, 5000⟩]
      = some 5000 := by decide

example :
    zone_loop [⟨50, 1800⟩, ⟨52, 3500⟩, ⟨70, 5000⟩] 51 [⟨50, 1800⟩, ⟨52, 3500⟩, ⟨70, 5000⟩]
      = some 3500 := by decide

example : sort_zones [⟨52, 3500⟩, ⟨50, 1800⟩] = [⟨50, 1800⟩, ⟨52, 3500⟩] := by decide

theorem findIdx_le_length_append_cons (p : Zone → Bool) (z : Zone) (hp : p z = true) :
    ∀ (pre rest : List Zone), (pre ++ z :: rest).findIdx p ≤ pre.length := by
  intro pre rest
  induction pre with
  | nil => simp [List.findIdx_cons, hp]
  | cons a pre ih =>
    simp only [List.cons_append, List.findIdx_cons, List.length_cons]
    cases hpa : p a with
    | true => simp
    | false => simpa using Nat.succ_le_succ ih

theorem getD_append_lt (pre suf : List Zone) (j : Nat) (hj : j < pre.length) (d : Zone) :
    (pre ++ suf).getD j d = pre.get ⟨j, hj⟩ := by
  induction pre generalizing j with
  | nil => simp at hj
  | cons a pre ih =>
    cases j with
    | zero => simp
    | succ j =>
      simp only [List.cons_append, List.getD_cons_succ, List.length_cons] at *
      exact ih j (Nat.lt_of_succ_lt_succ hj)

theorem zone_loop_eq_find (t : ℚ) :
    ∀ (suf pre : List Zone), (∀ w ∈ pre, ¬ t ≤ w.temp_threshold) →
      zone_loop (pre ++ suf) t suf
        = (suf.find? (fun z => decide (t ≤ z.temp_threshold))).map Zone.target_rpm := by
  intro suf
  induction suf with
  | nil => intro pre _; simp [zone_loop]
  | cons z rest ih =>
    intro pre hpre
    by_cases hpos : t ≤ z.temp_threshold
    · rw [List.find?_cons_of_pos _ (by simpa using hpos)]
      by_cases hidx : (pre ++ z :: rest).findIdx (fun w => decide (w = z)) = 0
      · simp [zone_loop, hidx, hpos]
      · have hle : (pre ++ z :: rest).findIdx (fun w => decide (w = z)) ≤ pre.length :=
          findIdx_le_length_append_cons _ z (by simp) pre rest
        have hpos' : 0 < (pre ++ z :: rest).findIdx (fun w => decide (w = z)) :=
          Nat.pos_of_ne_zero hidx
        have hj : (pre ++ z :: rest).findIdx (fun w => decide (w = z)) - 1 < pre.length := by
          omega
        have hget := getD_append_lt pre (z :: rest) _ hj z
        have hmem : pre.get ⟨(pre ++ z :: rest).findIdx (fun w => decide (w = z)) - 1, hj⟩ ∈ pre :=
          pre.get_mem _ _
        have hlt : (pre.get ⟨(pre ++ z :: rest).findIdx (fun w => decide (w = z)) - 1,
            hj⟩).temp_threshold < t := lt_of_not_le (hpre _ hmem)
        simp only [zone_loop, hidx, if_false, hget]
        rw [if_pos ⟨hlt, hpos⟩]
        simp
    · rw [List.find?_cons_of_neg _ (by simpa using hpos)]
      have hstep : zone_loop (pre ++ z :: rest) t (z :: rest)
          = zone_loop (pre ++ z :: rest) t rest := by
        by_cases hidx : (pre ++ z :: rest).findIdx (fun w => decide (w = z)) = 0
        · simp [zone_loop, hidx, hpos]
        · simp only [zone_loop, hidx, if_false]
          rw [if_neg (by intro h; exact hpos h.2)]
      rw [hstep]
      have hassoc : pre ++ z :: rest = (pre ++ [z]) ++ rest := by simp
      rw [hassoc]
      exact ih (pre ++ [z]) (by
        intro w hw
        rcases List.mem_append.mp hw with h | h
        · exact hpre w h
        · simp only [List.mem_singleton] at h
          subst h; exact hpos)

theorem sort_zones_ne_nil {zones : List Zone} (h : zones ≠ []) : sort_zones zones ≠ [] := by
  intro hc
  apply h
  have := List.perm_insertionSort
    (fun a b : Zone => a.temp_threshold ≤ b.temp_threshold) zones
  rw [sort_zones] at hc
  rw [hc] at this
  exact (List.Perm.nil_eq this).symm

theorem calc_eq_spec_sorted (server : ServerTarget) (zones : List Zone) (t : ℚ)
    (hfd : server.fan_defaults = some zones) (hne : zones ≠ []) :
    calculate_target_rpm server t = spec_zone_rpm (sort_zones zones) t := by
  have hbridge := zone_loop_eq_find t (sort_zones zones) [] (by simp)
  simp only [List.nil_append] at hbridge
  rw [calculate_target_rpm, hfd]
  simp only [hne, if_false]
  rw [hbridge, spec_zone_rpm]
  cases hfind : (sort_zones zones).find? (fun z => decide (t ≤ z.temp_threshold)) with
  | some z =>
    simp only [Option.map_some]
    by_cases h0 : z.target_rpm = 0 <;> simp [h0]
  | none =>
    cases hlast : (sort_zones zones).getLast? with
    | none => exact absurd (List.getLast?_eq_none_iff.mp hlast) (sort_zones_ne_nil hne)
    | some zl =>
      simp only [Option.map_some]
      by_cases h0 : zl.target_rpm = 0 <;> simp [h0]

theorem spec_zone_rpm_cons (z : Zone) (rest : List Zone) (t : ℚ) :
    spec_zone_rpm (z :: rest) t =
      if t ≤ z.temp_threshold then some z.target_rpm
      else match rest with
        | [] => some z.target_rpm
        | _ :: _ => spec_zone_rpm rest t := by
  by_cases h : t ≤ z.temp_threshold
  · simp [spec_zone_rpm, h]
  · rw [if_neg h]
    cases rest with
    | nil => simp [spec_zone_rpm, h]
    | cons w ws =>
      rw [spec_zone_rpm, List.find?_cons_of_neg _ (by simpa using h), spec_zone_rpm]
      cases hf : (w :: ws).find? (fun z => decide (t ≤ z.temp_threshold)) with
      | some u => simp
      | none => simp [List.getLast?_cons_cons]

theorem spec_zone_rpm_mem (t : ℚ) :
    ∀ (zones : List Zone), zones ≠ [] →
      ∃ z ∈ zones, spec_zone_rpm zones t = some z.target_rpm := by
  intro zones hne
  rw [spec_zone_rpm]
  cases hf : zones.find? (fun z => decide (t ≤ z.temp_threshold)) with
  | some z => exact ⟨z, List.mem_of_find?_eq_some hf, rfl⟩
  | none =>
    cases hlast : zones.getLast? with
    | none => exact absurd (List.getLast?_eq_none_iff.mp hlast) hne
    | some zl =>
      exact ⟨zl, List.mem_of_getLast?_eq_some hlast, rfl⟩

theorem spec_zone_rpm_head (t : ℚ) (z : Zone) (rest : List Zone)
    (h : t ≤ z.temp_threshold) : spec_zone_rpm (z :: rest) t = some z.target_rpm := by
  rw [spec_zone_rpm_cons, if_pos h]

theorem spec_zone_rpm_mid (t : ℚ) :
    ∀ (zones : List Zone) (i : Nat) (hi : i + 1 < zones.length),
      zones.Sorted (fun a b => a.temp_threshold ≤ b.temp_threshold) →
      (zones.get ⟨i, by omega⟩).temp_threshold < t →
      t ≤ (zones.get ⟨i + 1, hi⟩).temp_threshold →
      spec_zone_rpm zones t = some (zones.get ⟨i + 1, hi⟩).target_rpm := by
  intro zones
  induction zones with
  | nil => intro i hi; simp at hi
  | cons z rest ih =>
    intro i hi hsort hlo hhi
    cases i with
    | zero =>
      have hz : ¬ t ≤ z.temp_threshold := not_le.mpr (by simpa using hlo)
      rw [spec_zone_rpm_cons, if_neg hz]
      cases rest with
      | nil => simp at hi
      | cons w ws =>
        simp only [List.get] at hhi ⊢
        exact spec_zone_rpm_head t w ws hhi
    | succ j =>
      have hrest : rest.Sorted (fun a b => a.temp_threshold ≤ b.temp_threshold) :=
        (List.sorted_cons.mp hsort).2
      have hlen : j + 1 < rest.length := by
        simpa [Nat.succ_lt_succ_iff] using hi
      have hz : ¬ t ≤ z.temp_threshold := by
        have hmem : rest.get ⟨j, by omega⟩ ∈ rest := rest.get_mem _ _
        have hle : z.temp_threshold ≤ (rest.get ⟨j, by omega⟩).temp_threshold :=
          (List.sorted_cons.mp hsort).1 _ hmem
        have hlo' : (rest.get ⟨j, by omega⟩).temp_threshold < t := by
          simpa [List.get] using hlo
        exact not_le.mpr (lt_of_le_of_lt hle hlo')
      rw [spec_zone_rpm_cons, if_neg hz]
      cases rest with
      | nil => simp at hlen
      | cons w ws =>
        have := ih j hlen hrest (by simpa [List.get] using hlo) (by simpa [List.get] using hhi)
        simpa [List.get] using this

theorem spec_zone_rpm_last (t : ℚ) :
    ∀ (zones : List Zone) (hne : zones ≠ []),
      zones.Sorted (fun a b => a.temp_threshold ≤ b.temp_threshold) →
      (zones.getLast hne).temp_threshold < t →
      spec_zone_rpm zones t = some (zones.getLast hne).target_rpm := by
  intro zones
  induction zones with
  | nil => intro hne; exact absurd rfl hne
  | cons z rest ih =>
    intro hne hsort hlast
    cases rest with
    | nil =>
      simp only [List.getLast_singleton] at hlast ⊢
      rw [spec_zone_rpm_cons, if_neg (not_le.mpr hlast)]
    | cons w ws =>
      have hlast_eq : (z :: w :: ws).getLast hne = (w :: ws).getLast (by simp) :=
        List.getLast_cons (by simp)
      rw [hlast_eq] at hlast ⊢
      have hz : ¬ t ≤ z.temp_threshold := by
        have hmem : (w :: ws).getLast (by simp) ∈ w :: ws := List.getLast_mem _
        have hle : z.temp_threshold ≤ ((w :: ws).getLast (by simp)).temp_threshold :=
          (List.sorted_cons.mp hsort).1 _ hmem
        exact not_le.mpr (lt_of_le_of_lt hle hlast)
      rw [spec_zone_rpm_cons, if_neg hz]
      exact ih (by simp) (List.sorted_cons.mp hsort).2 hlast

theorem spec_zone_rpm_mono (t1 t2 : ℚ) (hle : t1 ≤ t2) :
    ∀ (zones : List Zone),
      zones.Sorted (fun a b => a.target_rpm ≤ b.target_rpm) →
      ∀ r1 r2, spec_zone_rpm zones t1 = some r1 → spec_zone_rpm zones t2 = some r2 →
        r1 ≤ r2 := by
  intro zones
  induction zones with
  | nil => intro _ r1 r2 h1; simp [spec_zone_rpm] at h1
  | cons z rest ih =>
    intro hsort r1 r2 h1 h2
    rw [spec_zone_rpm_cons] at h1 h2
    by_cases hz2 : t2 ≤ z.temp_threshold
    · have hz1 : t1 ≤ z.temp_threshold := le_trans hle hz2
      rw [if_pos hz1] at h1
      rw [if_pos hz2] at h2
      rw [← Option.some.inj h1, ← Option.some.inj h2]
    · rw [if_neg hz2] at h2
      cases rest with
      | nil =>
        have hr2 : z.target_rpm = r2 := Option.some.inj h2
        have hr1 : z.target_rpm = r1 := by
          by_cases hz1 : t1 ≤ z.temp_threshold
          · rw [if_pos hz1] at h1; exact Option.some.inj h1
          · rw [if_neg hz1] at h1; exact Option.some.inj h1
        rw [← hr1, ← hr2]
      | cons w ws =>
        by_cases hz1 : t1 ≤ z.temp_threshold
        · rw [if_pos hz1] at h1
          rcases spec_zone_rpm_mem t2 (w :: ws) (by simp) with ⟨u, hu_mem, hu_eq⟩
          have hur : u.target_rpm = r2 := Option.some.inj (hu_eq.symm.trans h2)
          rw [← Option.some.inj h1, ← hur]
          exact (List.sorted_cons.mp hsort).1 u hu_mem
        · rw [if_neg hz1] at h1
          exact ih (List.sorted_cons.mp hsort).2 r1 r2 h1 h2

/-- C1: for a non-empty zone table sorted ascending by threshold, `_calculate_target_rpm`
returns exactly one configured zone's rpm, chosen as the claim states: at or below the
lowest threshold the lowest zone's rpm, strictly above threshold i and at or below
threshold i+1 zone i+1's rpm, strictly above the highest threshold the highest zone's
rpm; and with monotonically non-decreasing configured rpms the returned rpm is
monotonically non-decreasing in temperature. -/
theorem C1_fan_curve (server : ServerTarget) (zones : List Zone)
    (hfd : server.fan_defaults = some zones) (hne : zones ≠ [])
    (hsort : zones.Sorted (fun a b => a.temp_threshold ≤ b.temp_threshold)) :
    (∀ t, ∃ z ∈ zones, calculate_target_rpm server t = some z.target_rpm) ∧
    (∀ t (h0 : 0 < zones.length), t ≤ (zones.get ⟨0, h0⟩).temp_threshold →
      calculate_target_rpm server t = some (zones.get ⟨0, h0⟩).target_rpm) ∧
    (∀ t (i : Nat) (hi : i + 1 < zones.length),
      (zones.get ⟨i, by omega⟩).temp_threshold < t →
      t ≤ (zones.get ⟨i + 1, hi⟩).temp_threshold →
      calculate_target_rpm server t = some (zones.get ⟨i + 1, hi⟩).target_rpm) ∧
    (∀ t, (zones.getLast hne).temp_threshold < t →
      calculate_target_rpm server t = some (zones.getLast hne).target_rpm) ∧
    (zones.Sorted (fun a b => a.target_rpm ≤ b.target_rpm) →
      ∀ t1 t2 r1 r2, t1 ≤ t2 →
        calculate_target_rpm server t1 = some r1 →
        calculate_target_rpm server t2 = some r2 → r1 ≤ r2) := by
  have hsz : sort_zones zones = zones := hsort.insertionSort_eq
  have hcalc : ∀ t, calculate_target_rpm server t = spec_zone_rpm zones t := by
    intro t
    rw [calc_eq_spec_sorted server zones t hfd hne, hsz]
  refine ⟨?_, ?_, ?_, ?_, ?_⟩
  · intro t
    rw [hcalc]
    exact spec_zone_rpm_mem t zones hne
  · intro t h0 hle
    rw [hcalc]
    cases zones with
    | nil => simp at h0
    | cons z rest =>
      simp only [List.get] at hle ⊢
      exact spec_zone_rpm_head t z rest hle
  · intro t i hi hlo hhi
    rw [hcalc]
    exact spec_zone_rpm_mid t zones i hi hsort hlo hhi
  · intro t hlast
    rw [hcalc]
    exact spec_zone_rpm_last t zones hne hsort hlast
  · intro hrpm t1 t2 r1 r2 hle h1 h2
    rw [hcalc] at h1 h2
    exact spec_zone_rpm_mono t1 t2 hle zones hrpm r1 r2 h1 h2

/-- The concrete entity of the C5 scenario: zones 50C/1800rpm, 52C/3500rpm, 70C/5000rpm. -/
def c5_server : ServerTarget :=
  { id := 1, name := "s", vendor := "supermicro",
    fan_defaults := some [⟨50, 1800⟩, ⟨52, 3500⟩, ⟨70, 5000⟩], fan_overrides := [],
    notification_channel_ids := [], alert_config := [],
    offline_alert_threshold_minutes := 15, last_successful_poll := none, created_at := 0 }

/-- C1 witness: the theorem applied to the concrete sorted zone table at 60C. -/
theorem C1_fan_curve_witness :
    ∃ z ∈ ([⟨50, 1800⟩, ⟨52, 3500⟩, ⟨70, 5000⟩] : List Zone),
      calculate_target_rpm c5_server 60 = some z.target_rpm :=
  (C1_fan_curve c5_server [⟨50, 1800⟩, ⟨52, 3500⟩, ⟨70, 5000⟩] rfl (by decide)
    (by decide)).1 60

/-- C5 counterexample: at 60C the code returns 5000 rpm (60 lies strictly above 52 and at
or below 70), not the 3500 rpm the claim asserts, so the claimed scenario is false. -/
theorem C5_counterexample :
    ¬ (calculate_target_rpm c5_server 48 = some 1800 ∧
       calculate_target_rpm c5_server 60 = some 3500 ∧
       calculate_target_rpm c5_server 75 = some 5000) := by
  decide

/-- C5 amended: for zones 50C/1800, 52C/3500, 70C/5000 the computed targets are 1800 rpm
at 48C, 5000 rpm at 60C (not 3500: 60 falls in the 52-70 zone), and 5000 rpm at 75C. -/
theorem C5_fan_scenario :
    calculate_target_rpm c5_server 48 = some 1800 ∧
    calculate_target_rpm c5_server 60 = some 5000 ∧
    calculate_target_rpm c5_server 75 = some 5000 := by
  decide

/-- The per-override branch of `_poll_server`: overrides with an empty identifier or no
`min_rpm` are skipped; otherwise the override rpm is used while the temperature is at
or below the first ramp-up threshold and the zone-computed base rpm above it. -/
def override_command (first_zone_threshold : Option ℚ) (base_rpm : Int) (cpu_temp : ℚ)
    (o : FanOverride) : Option (Int × Option String) :=
  if o.fan_identifier = "" then none
  else
    match o.min_rpm with
    | none => none
    | some m =>
      match first_zone_threshold with
      | some thr =>
        if cpu_temp ≤ thr then some (m, some o.fan_identifier)
        else some (base_rpm, some o.fan_identifier)
      | none => some (base_rpm, some o.fan_identifier)

/-- The sequence of `set_fan_speed` commands `_poll_server` issues once a CPU temperature
has been parsed: the zone-computed base speed for all fans, then one command per
eligible override.  An absent or empty zone table means no fan action. -/
def fan_commands (server : ServerTarget) (cpu_temp : ℚ) : List (Int × Option String) :=
  match calculate_target_rpm server cpu_temp with
  | none => []
  | some base_rpm =>
    (base_rpm, none) ::
      server.fan_overrides.filterMap
        (override_command (get_first_zone_threshold server) base_rpm cpu_temp)

theorem calculate_target_rpm_isSome (server : ServerTarget) (zones : List Zone) (t : ℚ)
    (hfd : server.fan_defaults = some zones) (hne : zones ≠ []) :
    ∃ base, calculate_target_rpm server t = some base := by
  rw [calculate_target_rpm, hfd]
  simp only [hne, if_false]
  cases hloop : zone_loop (sort_zones zones) t (sort_zones zones) with
  | some r => by_cases h0 : r = 0 <;> simp [h0]
  | none =>
    cases hlast : (sort_zones zones).getLast? with
    | none => exact absurd (List.getLast?_eq_none_iff.mp hlast) (sort_zones_ne_nil hne)
    | some zl => by_cases h0 : zl.target_rpm = 0 <;> simp [h0]

/-- C6: for an entity with at least two configured zones, an override carrying a fan
identifier and a `min_rpm` is commanded with the override rpm exactly when the parsed
temperature is at or below the second-lowest zone threshold and with the entity's
zone-computed base rpm strictly above it; an override with no `min_rpm` is inert. -/
theorem C6_fan_override (server : ServerTarget) (zones : List Zone)
    (hfd : server.fan_defaults = some zones) (hlen : 2 ≤ zones.length) (t : ℚ) :
    ∃ t2 base,
      get_first_zone_threshold server = some t2 ∧
      t2 = ((sort_zones zones).getD 1 ⟨0, 0⟩).temp_threshold ∧
      calculate_target_rpm server t = some base ∧
      fan_commands server t = (base, none) ::
        server.fan_overrides.filterMap (override_command (some t2) base t) ∧
      (∀ o ∈ server.fan_overrides, ∀ m, o.min_rpm = some m → o.fan_identifier ≠ "" →
        override_command (some t2) base t o
          = some (if t ≤ t2 then m else base, some o.fan_identifier)) ∧
      (∀ o ∈ server.fan_overrides, o.min_rpm = none →
        override_command (some t2) base t o = none) := by
  have hne : zones ≠ [] := by
    intro h
    rw [h] at hlen
    simp at hlen
  have hcond : ¬ (zones = [] ∨ zones.length < 2) := by
    push_neg
    exact ⟨hne, by omega⟩
  have hthr : get_first_zone_threshold server
      = some (((sort_zones zones).getD 1 ⟨0, 0⟩).temp_threshold) := by
    rw [get_first_zone_threshold, hfd]
    simp only [hcond, if_false]
  obtain ⟨base, hbase⟩ := calculate_target_rpm_isSome server zones t hfd hne
  refine ⟨((sort_zones zones).getD 1 ⟨0, 0⟩).temp_threshold, base, hthr, rfl, hbase, ?_, ?_, ?_⟩
  · rw [fan_commands, hbase, hthr]
  · intro o _ m hm hid
    simp only [override_command, hm, if_neg hid]
    by_cases hcmp : t ≤ ((sort_zones zones).getD 1 ⟨0, 0⟩).temp_threshold
    · rw [if_pos hcmp, if_pos hcmp]
    · rw [if_neg hcmp, if_neg hcmp]
  · intro o _ hm
    simp only [override_command, hm]
    by_cases hid : o.fan_identifier = ""
    · rw [if_pos hid]
    · rw [if_neg hid]

/-- A concrete entity for the override witness: three zones, one eligible override on
fan FAN1 at 900 rpm and one inert override without `min_rpm`. -/
def c6_server : ServerTarget :=
  { id := 2, name := "s6", vendor := "supermicro",
    fan_defaults := some [⟨50, 1800⟩, ⟨52, 3500⟩, ⟨70, 5000⟩],
    fan_overrides := [⟨"FAN1", some 900, none⟩, ⟨"FAN2", none, none⟩],
    notification_channel_ids := [], alert_config := [],
    offline_alert_threshold_minutes := 15, last_successful_poll := none, created_at := 0 }

/-- Exceptions `_build_fan_command` raises: NotImplementedError for known but
unimplemented vendors, ValueError for unknown vendor tags. -/
inductive FanCommandError
  | notImplemented (msg : String)
  | valueError (msg : String)
deriving DecidableEq

/-- ASCII lower-casing, the fragment of Python `str.lower()` these inputs exercise. -/
def asciiLower (c : Char) : Char :=
  if 65 ≤ c.toNat ∧ c.toNat ≤ 90 then Char.ofNat (c.toNat + 32) else c

/-- ASCII upper-casing, the fragment of Python `str.upper()` these inputs exercise. -/
def asciiUpper (c : Char) : Char :=
  if 97 ≤ c.toNat ∧ c.toNat ≤ 122 then Char.ofNat (c.toNat - 32) else c

/-- Python `str.lower()` on a whole string (ASCII fragment). -/
def pyLower (s : String) : String := String.mk (s.toList.map asciiLower)

def hexDigitChar (n : Nat) : Char :=
  if n < 10 then Char.ofNat (48 + n) else Char.ofNat (97 + (n - 10))

/-- Python `hex()` for the byte-sized values produced here (all at most 0xff). -/
def pyHex (n : Nat) : String :=
  if n < 16 then String.mk ['0', 'x', hexDigitChar n]
  else String.mk ['0', 'x', hexDigitChar (n / 16), hexDigitChar (n % 16)]

/-- The Supermicro speed-byte computation of `_build_fan_command`: 0 requests full speed
(0x64); at most 2000 rpm the quiet byte 0x18; at most 3500 rpm the balanced byte 0x30;
otherwise a percentage of an assumed 5000 rpm ceiling, clamped to 0x64. -/
def supermicro_speed_byte (target_rpm : Int) : Int :=
  if target_rpm = 0 then 0x64
  else if target_rpm ≤ 2000 then 0x18
  else if target_rpm ≤ 3500 then 0x30
  else min 0x64 (min 100 (target_rpm * 100 / 5000) * 0x64 / 100)

/-- `_build_fan_command(vendor, target_rpm, fan_identifier)` from ipmi.py. -/
def build_fan_command (vendor : String) (target_rpm : Int)
    (fan_identifier : Option String) : Except FanCommandError String :=
  if pyLower vendor = "supermicro" then
    Except.ok ("0x30 0x70 0x66 "
      ++ pyHex (match fan_identifier with | none => 0x01 | some _ => 0x00)
      ++ " 0x00 0x00 " ++ pyHex (supermicro_speed_byte target_rpm).toNat)
  else if pyLower vendor = "dell" then
    Except.error (.notImplemented "Dell fan control not yet implemented")
  else if pyLower vendor = "hp" then
    Except.error (.notImplemented "HP iLO fan control not yet implemented")
  else Except.error (.valueError ("Unsupported vendor: " ++ pyLower vendor))

/-- C7: the Supermicro mapping sends rpm 0 to the maximum byte 0x64, rpm at most 2000 to
the quiet byte 0x18, rpm in (2000, 3500] to the mid byte 0x30, rpm above 3500 to a
linear interpolation against a 5000 rpm ceiling clamped to 0x64; all-fans versus named
fan selects zone byte 0x1 versus 0x0; any vendor tag other than supermicro fails with
an explicit error. -/
theorem C7_build_fan_command :
    (∀ rpm : Int, rpm = 0 → supermicro_speed_byte rpm = 0x64) ∧
    (∀ rpm : Int, rpm ≠ 0 → rpm ≤ 2000 → supermicro_speed_byte rpm = 0x18) ∧
    (∀ rpm : Int, 2000 < rpm → rpm ≤ 3500 → supermicro_speed_byte rpm = 0x30) ∧
    (∀ rpm : Int, 3500 < rpm → supermicro_speed_byte rpm = min 0x64 (rpm * 0x64 / 5000)) ∧
    (∀ rpm : Int,
      build_fan_command "supermicro" rpm none
        = Except.ok ("0x30 0x70 0x66 0x1 0x00 0x00 "
            ++ pyHex (supermicro_speed_byte rpm).toNat) ∧
      ∀ id, build_fan_command "supermicro" rpm (some id)
        = Except.ok ("0x30 0x70 0x66 0x0 0x00 0x00 "
            ++ pyHex (supermicro_speed_byte rpm).toNat)) ∧
    (∀ (v : String) (rpm : Int) (fan : Option String), pyLower v ≠ "supermicro" →
      ∃ e, build_fan_command v rpm fan = Except.error e) := by
  refine ⟨?_, ?_, ?_, ?_, ?_, ?_⟩
  · intro rpm h
    simp [supermicro_speed_byte, h]
  · intro rpm h1 h2
    simp [supermicro_speed_byte, h1, h2]
  · intro rpm h1 h2
    rw [supermicro_speed_byte, if_neg (by omega), if_neg (by omega), if_pos h2]
  · intro rpm h
    rw [supermicro_speed_byte, if_neg (by omega), if_neg (by omega), if_neg (by omega)]
    have hcancel : min 100 (rpm * 100 / 5000) * 100 / 100 = min 100 (rpm * 100 / 5000) :=
      Int.mul_ediv_cancel _ (by norm_num)
    have h64 : (0x64 : Int) = 100 := by norm_num
    rw [h64, hcancel]
    exact min_eq_right (min_le_left _ _)
  · intro rpm
    exact ⟨rfl, fun id => rfl⟩
  · intro v rpm fan h
    simp only [build_fan_command, if_neg h]
    by_cases hd : pyLower v = "dell"
    · rw [if_pos hd]
      exact ⟨_, rfl⟩
    · rw [if_neg hd]
      by_cases hh : pyLower v = "hp"
      · rw [if_pos hh]
        exact ⟨_, rfl⟩
      · rw [if_neg hh]
        exact ⟨_, rfl⟩

/-- C7 witness: the theorem applied at rpm 4000 (interpolation branch) and at the
unsupported vendor tag Dell. -/
theorem C7_build_fan_command_witness :
    supermicro_speed_byte 4000 = min 0x64 (4000 * 0x64 / 5000) ∧
    ∃ e, build_fan_command "Dell" 1000 none = Except.error e :=
  ⟨C7_build_fan_command.2.2.2.1 4000 (by decide),
   C7_build_fan_command.2.2.2.2.2 "Dell" 1000 none (by decide)⟩

/-- C6 witness: the theorem applied to the concrete entity at 48C. -/
theorem C6_fan_override_witness :
    ∃ t2 base,
      get_first_zone_threshold c6_server = some t2 ∧
      t2 = ((sort_zones [⟨50, 1800⟩, ⟨52, 3500⟩, ⟨70, 5000⟩]).getD 1 ⟨0, 0⟩).temp_threshold ∧
      calculate_target_rpm c6_server 48 = some base ∧
      fan_commands c6_server 48 = (base, none) ::
        c6_server.fan_overrides.filterMap (override_command (some t2) base 48) ∧
      (∀ o ∈ c6_server.fan_overrides, ∀ m, o.min_rpm = some m → o.fan_identifier ≠ "" →
        override_command (some t2) base 48 o
          = some (if (48 : ℚ) ≤ t2 then m else base, some o.fan_identifier)) ∧
      (∀ o ∈ c6_server.fan_overrides, o.min_rpm = none →
        override_command (some t2) base 48 o = none) :=
  C6_fan_override c6_server [⟨50, 1800⟩, ⟨52, 3500⟩, ⟨70, 5000⟩] rfl (by decide) 48

/-- A row of the active_alerts table (models.alert.ActiveAlert). -/
structure ActiveAlert where
  server_id : Nat
  alert_type : String
  message : String
  first_triggered_at : ℚ
  last_updated_at : ℚ
  cleared_at : Option ℚ
  cleared_by : Option String
deriving DecidableEq

/-- A notification dispatch request handed to `_send_alert_notification`. -/
structure Notif where
  alert_type : String
  is_cleared : Bool
  message : String
deriving DecidableEq

/-- The live-record predicate of the activate/clear queries: same server, same kind,
`cleared_at` still null. -/
def is_live_for (sid : Nat) (kind : String) (a : ActiveAlert) : Bool :=
  decide (a.server_id = sid ∧ a.alert_type = kind ∧ a.cleared_at = none)

/-- The `scalar_one_or_none` lookup for the live record of (server, kind). -/
def find_live (st : List ActiveAlert) (sid : Nat) (kind : String) : Option ActiveAlert :=
  st.find? (is_live_for sid kind)

/-- In-place mutation of the found ORM row: rewrite the first live record of the key. -/
def update_first_live (sid : Nat) (kind : String) (f : ActiveAlert → ActiveAlert) :
    List ActiveAlert → List ActiveAlert
  | [] => []
  | a :: rest =>
    if is_live_for sid kind a then f a :: rest
    else a :: update_first_live sid kind f rest

/-- Any record of the key, live or cleared: the scope of the table's
UNIQUE(server_id, alert_type) constraint (models/alert.py lines 28-30), which covers
cleared rows too since rows are never deleted. -/
def find_any (st : List ActiveAlert) (sid : Nat) (kind : String) : Option ActiveAlert :=
  st.find? (fun a => decide (a.server_id = sid ∧ a.alert_type = kind))

/-- `_activate_alert(session, server, alert_type, message)`: update `last_updated_at`
only when a live record exists (no re-notification); otherwise insert a fresh record
and send one notification.  The insert commits against the uniqueness constraint over
all rows of the key, so with a previously cleared record present the commit raises
IntegrityError: nothing is created and nothing is sent. -/
def activate_alert (st : List ActiveAlert) (sid : Nat) (kind : String) (msg : String)
    (now : ℚ) : Except String (List ActiveAlert × List Notif) :=
  match find_live st sid kind with
  | some _ =>
    Except.ok
      (update_first_live sid kind (fun a => { a with last_updated_at := now }) st, [])
  | none =>
    if (find_any st sid kind).isSome then
      Except.error "IntegrityError: UNIQUE constraint failed: uq_server_alert_type"
    else
      Except.ok
        (st ++ [{ server_id := sid, alert_type := kind, message := msg,
                  first_triggered_at := now, last_updated_at := now,
                  cleared_at := none, cleared_by := none }],
         [⟨kind, false, msg⟩])

/-- `_clear_alert_if_active(session, server, alert_type, cleared_by)`: stamp
`cleared_at`, the actor and `last_updated_at` and send one cleared notification when a
live record exists, otherwise do nothing. -/
def clear_alert_if_active (st : List ActiveAlert) (sid : Nat) (kind : String)
    (cleared_by : String) (now : ℚ) : List ActiveAlert × List Notif :=
  match find_live st sid kind with
  | none => (st, [])
  | some a =>
    (update_first_live sid kind
      (fun b => { b with cleared_at := some now, cleared_by := some cleared_by,
                         last_updated_at := now }) st,
     [⟨kind, true, a.message⟩])

theorem update_first_live_append_not (sid : Nat) (kind : String)
    (f : ActiveAlert → ActiveAlert) (l1 l2 : List ActiveAlert)
    (h : ∀ a ∈ l1, is_live_for sid kind a = false) :
    update_first_live sid kind f (l1 ++ l2) = l1 ++ update_first_live sid kind f l2 := by
  induction l1 with
  | nil => simp
  | cons a l1 ih =>
    simp only [List.cons_append, update_first_live, h a (by simp)]
    simp only [Bool.false_eq_true, if_false, List.cons.injEq, true_and]
    exact ih (fun b hb => h b (by simp [hb]))

theorem find_any_none_find_live_none (st : List ActiveAlert) (sid : Nat) (kind : String)
    (h : find_any st sid kind = none) : find_live st sid kind = none := by
  rw [find_live, List.find?_eq_none]
  intro a ha hlive
  have hkey := List.find?_eq_none.mp h a ha
  simp only [is_live_for, decide_eq_true_eq] at hlive
  exact hkey (by simp [hlive.1, hlive.2.1])

/-- C2 amended: activation is idempotent on a key with no prior record at all: the first
call creates the one record and sends the one notification, the second only refreshes
`last_updated_at`; but on a key whose only record is a previously cleared one the
insert violates the uniqueness constraint and raises IntegrityError, creating nothing
and sending nothing. -/
theorem C2_activate_idempotent :
    (∀ (st : List ActiveAlert) (sid : Nat) (kind m1 m2 : String) (t1 t2 : ℚ),
      find_any st sid kind = none → t1 < t2 →
      ∃ st1 st2,
        activate_alert st sid kind m1 t1 = Except.ok (st1, [⟨kind, false, m1⟩]) ∧
        st1.length = st.length + 1 ∧
        activate_alert st1 sid kind m2 t2 = Except.ok (st2, []) ∧
        st2.length = st.length + 1 ∧
        ∃ a, st2.filter (is_live_for sid kind) = [a] ∧
          a.first_triggered_at = t1 ∧ a.last_updated_at = t2 ∧
          a.first_triggered_at < a.last_updated_at ∧ a.message = m1) ∧
    (∀ (st : List ActiveAlert) (sid : Nat) (kind msg : String) (t : ℚ),
      find_live st sid kind = none → (find_any st sid kind).isSome = true →
      activate_alert st sid kind msg t
        = Except.error "IntegrityError: UNIQUE constraint failed: uq_server_alert_type") := by
  constructor
  · intro st sid kind m1 m2 t1 t2 hany hlt
    have hnone : find_live st sid kind = none :=
      find_any_none_find_live_none st sid kind hany
    have hall : ∀ a ∈ st, is_live_for sid kind a = false := by
      intro a ha
      have := List.find?_eq_none.mp hnone a ha
      exact Bool.not_eq_true _ ▸ by simpa using this
    have hnew_live : is_live_for sid kind ⟨sid, kind, m1, t1, t1, none, none⟩ = true := by
      simp [is_live_for]
    have hr1 : activate_alert st sid kind m1 t1
        = Except.ok (st ++ [⟨sid, kind, m1, t1, t1, none, none⟩], [⟨kind, false, m1⟩]) := by
      rw [activate_alert, hnone, if_neg (by rw [hany]; simp)]
    have hfind1 : find_live (st ++ [⟨sid, kind, m1, t1, t1, none, none⟩]) sid kind
        = some ⟨sid, kind, m1, t1, t1, none, none⟩ := by
      simp only [find_live, List.find?_append]
      rw [show st.find? (is_live_for sid kind) = none from hnone]
      simp [hnew_live]
    have hr2 : activate_alert (st ++ [⟨sid, kind, m1, t1, t1, none, none⟩]) sid kind m2 t2
        = Except.ok (st ++ [⟨sid, kind, m1, t1, t2, none, none⟩], []) := by
      rw [activate_alert, hfind1]
      rw [update_first_live_append_not sid kind _ st _ hall]
      simp [update_first_live, hnew_live]
    refine ⟨_, _, hr1, by simp, hr2, by simp, ?_⟩
    refine ⟨⟨sid, kind, m1, t1, t2, none, none⟩, ?_, rfl, rfl, hlt, rfl⟩
    rw [List.filter_append,
      List.filter_eq_nil_iff.mpr (by intro a ha; simp [hall a ha])]
    simp [is_live_for]
  · intro st sid kind msg t h1 h2
    rw [activate_alert, h1, if_pos h2]

deriving instance DecidableEq for Except

/-- The state refuting C2 as claimed: the key's only record is a cleared one, the normal
state after any recovered outage. -/
def c2_cleared : ActiveAlert := ⟨1, "connectivity", "old outage", 0, 1, some 1, some "auto"⟩

/-- C2 counterexample: with a previously cleared record of the key the claim's "no live
record" situation holds, yet both activations raise IntegrityError: no record is
created, no notification is sent, and no live record exists afterwards — not exactly
one with the first call's `first_triggered_at`. -/
theorem C2_counterexample :
    find_live [c2_cleared] 1 "connectivity" = none ∧
    activate_alert [c2_cleared] 1 "connectivity" "down" 2
      = Except.error "IntegrityError: UNIQUE constraint failed: uq_server_alert_type" ∧
    activate_alert [c2_cleared] 1 "connectivity" "down" 3
      = Except.error "IntegrityError: UNIQUE constraint failed: uq_server_alert_type" ∧
    [c2_cleared].filter (is_live_for 1 "connectivity") = [] := by
  decide

/-- C2 witness: the amended theorem applied to the empty alert table at times 1 and 2. -/
theorem C2_activate_idempotent_witness :
    ∃ st1 st2,
      activate_alert [] 1 "connectivity" "down" 1
        = Except.ok (st1, [⟨"connectivity", false, "down"⟩]) ∧
      st1.length = List.length ([] : List ActiveAlert) + 1 ∧
      activate_alert st1 1 "connectivity" "still down" 2 = Except.ok (st2, []) ∧
      st2.length = List.length ([] : List ActiveAlert) + 1 ∧
      ∃ a, st2.filter (is_live_for 1 "connectivity") = [a] ∧
        a.first_triggered_at = 1 ∧ a.last_updated_at = 2 ∧
        a.first_triggered_at < a.last_updated_at ∧ a.message = "down" :=
  C2_activate_idempotent.1 [] 1 "connectivity" "down" "still down" 1 2 rfl (by norm_num)

theorem update_first_live_length (sid : Nat) (kind : String) (f : ActiveAlert → ActiveAlert) :
    ∀ st : List ActiveAlert, (update_first_live sid kind f st).length = st.length := by
  intro st
  induction st with
  | nil => rfl
  | cons a rest ih =>
    rw [update_first_live]
    by_cases h : is_live_for sid kind a = true
    · rw [if_pos h]
      simp
    · rw [if_neg h]
      simp [ih]

theorem find_live_update_clear (sid : Nat) (kind : String) (now : ℚ) (actor : String) :
    ∀ (st : List ActiveAlert) (a : ActiveAlert),
      (st.filter (is_live_for sid kind)).length ≤ 1 →
      find_live st sid kind = some a →
      find_live (update_first_live sid kind
        (fun b => { b with cleared_at := some now, cleared_by := some actor,
                           last_updated_at := now }) st) sid kind = none := by
  intro st
  induction st with
  | nil => intro a _ hfind; simp [find_live] at hfind
  | cons b rest ih =>
    intro a huniq hfind
    by_cases hb : is_live_for sid kind b = true
    · rw [update_first_live, if_pos hb]
      rw [find_live, List.find?_cons_of_neg _ (by simp [is_live_for])]
      have hfilter : (rest.filter (is_live_for sid kind)).length = 0 := by
        rw [List.filter_cons_of_pos hb] at huniq
        simp only [List.length_cons] at huniq
        omega
      rw [List.find?_eq_none]
      intro x hx hlive
      have : x ∈ rest.filter (is_live_for sid kind) := List.mem_filter.mpr ⟨hx, hlive⟩
      rw [List.length_eq_zero.mp hfilter] at this
      simp at this
    · rw [update_first_live, if_neg hb]
      rw [find_live, List.find?_cons_of_neg _ (by simpa using hb)]
      have hrest : find_live rest sid kind = some a := by
        rw [find_live] at hfind ⊢
        rwa [List.find?_cons_of_neg _ (by simpa using hb)] at hfind
      have huniq' : (rest.filter (is_live_for sid kind)).length ≤ 1 := by
        rw [List.filter_cons_of_neg (by simpa using hb)] at huniq
        exact huniq
      exact ih a huniq' hrest

theorem update_mem_of_find_live (sid : Nat) (kind : String) (g : ActiveAlert → ActiveAlert) :
    ∀ (st : List ActiveAlert) (a : ActiveAlert),
      find_live st sid kind = some a →
      g a ∈ update_first_live sid kind g st := by
  intro st
  induction st with
  | nil => intro a hfind; simp [find_live] at hfind
  | cons b rest ih =>
    intro a hfind
    by_cases hb : is_live_for sid kind b = true
    · have hab : a = b := by
        rw [find_live, List.find?_cons_of_pos _ hb] at hfind
        exact (Option.some.inj hfind).symm
      rw [update_first_live, if_pos hb, hab]
      simp
    · rw [update_first_live, if_neg hb]
      have hrest : find_live rest sid kind = some a := by
        rw [find_live] at hfind ⊢
        rwa [List.find?_cons_of_neg _ (by simpa using hb)] at hfind
      exact List.mem_cons_of_mem _ (ih a hrest)

/-- One scheduler-driven operation on the alert state of a fixed (entity, kind). -/
inductive AlertOp where
  | act (msg : String) (t : ℚ)
  | clr (actor : String) (t : ℚ)
deriving DecidableEq

/-- One scheduler call on a fixed (entity, kind).  A raised IntegrityError rolls the
transaction back: the table is unchanged and nothing is sent. -/
def step_op (sid : Nat) (kind : String) (st : List ActiveAlert) :
    AlertOp → List ActiveAlert × List Notif
  | .act msg t =>
    match activate_alert st sid kind msg t with
    | .ok r => r
    | .error _ => (st, [])
  | .clr actor t => clear_alert_if_active st sid kind actor t

/-- Run a sequence of activate/clear calls, counting the cleared notifications sent. -/
def run_ops (sid : Nat) (kind : String) (st : List ActiveAlert) : List AlertOp → List ActiveAlert × Nat
  | [] => (st, 0)
  | op :: ops =>
    ((run_ops sid kind (step_op sid kind st op).1 ops).1,
     ((step_op sid kind st op).2.filter (fun n => n.is_cleared)).length
       + (run_ops sid kind (step_op sid kind st op).1 ops).2)

/-- The number of true activate-to-clear edges in a run: clear calls issued while a live
record exists. -/
def clear_edges (sid : Nat) (kind : String) (st : List ActiveAlert) : List AlertOp → Nat
  | [] => 0
  | op :: ops =>
    (match op with
     | .clr _ _ => if (find_live st sid kind).isSome then 1 else 0
     | .act _ _ => 0) + clear_edges sid kind (step_op sid kind st op).1 ops

theorem cleared_count_act (st : List ActiveAlert) (sid : Nat) (kind : String)
    (msg : String) (t : ℚ) :
    ((step_op sid kind st (AlertOp.act msg t)).2.filter (fun n => n.is_cleared)).length
      = 0 := by
  rw [step_op]
  cases hf : find_live st sid kind with
  | some a => simp [activate_alert, hf, Notif.is_cleared]
  | none =>
    cases ha : (find_any st sid kind).isSome <;>
      simp [activate_alert, hf, ha, Notif.is_cleared]

theorem cleared_count_clr (st : List ActiveAlert) (sid : Nat) (kind : String)
    (actor : String) (t : ℚ) :
    ((clear_alert_if_active st sid kind actor t).2.filter (fun n => n.is_cleared)).length
      = if (find_live st sid kind).isSome then 1 else 0 := by
  cases hf : find_live st sid kind <;> simp [clear_alert_if_active, hf, Notif.is_cleared]

/-- C3: clearing a non-active (entity, kind) is a no-op with no notification; clearing a
live one stamps `cleared_at` and the actor and sends exactly one cleared notification;
and over any sequence of activate/clear calls the number of cleared notifications is
exactly the number of clear calls issued while a live record existed (none for repeated
steady states). -/
theorem C3_clear_if_active :
    (∀ (st : List ActiveAlert) (sid : Nat) (kind actor : String) (now : ℚ),
      find_live st sid kind = none →
      clear_alert_if_active st sid kind actor now = (st, [])) ∧
    (∀ (st : List ActiveAlert) (sid : Nat) (kind actor : String) (now : ℚ) (a : ActiveAlert),
      find_live st sid kind = some a →
      (st.filter (is_live_for sid kind)).length ≤ 1 →
      (clear_alert_if_active st sid kind actor now).2 = [⟨kind, true, a.message⟩] ∧
      (clear_alert_if_active st sid kind actor now).1.length = st.length ∧
      find_live (clear_alert_if_active st sid kind actor now).1 sid kind = none ∧
      ∃ b ∈ (clear_alert_if_active st sid kind actor now).1,
        b.server_id = a.server_id ∧ b.alert_type = a.alert_type ∧
        b.cleared_at = some now ∧ b.cleared_by = some actor ∧
        b.last_updated_at = now ∧ b.message = a.message ∧
        b.first_triggered_at = a.first_triggered_at) ∧
    (∀ (sid : Nat) (kind : String) (st : List ActiveAlert) (ops : List AlertOp),
      (run_ops sid kind st ops).2 = clear_edges sid kind st ops) := by
  refine ⟨?_, ?_, ?_⟩
  · intro st sid kind actor now h
    rw [clear_alert_if_active, h]
  · intro st sid kind actor now a hfind huniq
    rw [clear_alert_if_active, hfind]
    refine ⟨rfl, update_first_live_length sid kind _ st, ?_, ?_⟩
    · exact find_live_update_clear sid kind now actor st a huniq hfind
    · refine ⟨{ a with
                cleared_at := some now
                cleared_by := some actor
                last_updated_at := now },
        update_mem_of_find_live sid kind _ st a hfind, rfl, rfl, rfl, rfl, rfl, rfl, rfl⟩
  · intro sid kind st ops
    induction ops generalizing st with
    | nil => rfl
    | cons op ops ih =>
      rw [run_ops, clear_edges.eq_def]
      cases op with
      | act msg t =>
        simp only [cleared_count_act, Nat.zero_add]
        exact ih _
      | clr actor t =>
        simp only [step_op, cleared_count_clr]
        rw [ih _]

/-- C3 witness: the no-op branch applied to the empty table, the clear branch applied to
a one-record table, and the trace-count equation on a concrete run. -/
theorem C3_clear_if_active_witness :
    (clear_alert_if_active [] 1 "connectivity" "auto" 0 = ([], [])) ∧
    (clear_alert_if_active [⟨1, "connectivity", "down", 0, 0, none, none⟩] 1 "connectivity"
        "auto" 2).2 = [⟨"connectivity", true, "down"⟩] ∧
    (run_ops 1 "connectivity" []
        [AlertOp.act "down" 1, AlertOp.act "down" 2, AlertOp.clr "auto" 3,
         AlertOp.clr "auto" 4]).2
      = clear_edges 1 "connectivity" []
        [AlertOp.act "down" 1, AlertOp.act "down" 2, AlertOp.clr "auto" 3,
         AlertOp.clr "auto" 4] :=
  ⟨C3_clear_if_active.1 [] 1 "connectivity" "auto" 0 rfl,
   (C3_clear_if_active.2.1 [⟨1, "connectivity", "down", 0, 0, none, none⟩] 1 "connectivity"
      "auto" 2 ⟨1, "connectivity", "down", 0, 0, none, none⟩ (by decide) (by decide)).1,
   C3_clear_if_active.2.2 1 "connectivity" []
     [AlertOp.act "down" 1, AlertOp.act "down" 2, AlertOp.clr "auto" 3,
      AlertOp.clr "auto" 4]⟩

/-- Python whitespace for `str.strip` and `str.split` (ASCII fragment). -/
def isPySpace (c : Char) : Bool :=
  c = ' ' || c = '\t' || c = '\n' || c = '\r' || c = '\x0b' || c = '\x0c'

/-- Python `str.strip()`. -/
def py_strip (s : List Char) : List Char :=
  ((s.dropWhile isPySpace).reverse.dropWhile isPySpace).reverse

/-- Whether `needle` is a leading segment of `hay`. -/
def starts_with : List Char → List Char → Bool
  | _, [] => true
  | [], _ :: _ => false
  | c :: cs, d :: ds => decide (c = d) && starts_with cs ds

/-- Python's substring test `needle in hay`. -/
def contains_sub (needle : List Char) : List Char → Bool
  | [] => starts_with [] needle
  | c :: cs => starts_with (c :: cs) needle || contains_sub needle cs

/-- `_is_alert_enabled(server, alert_type)`: missing config or missing key means
disabled. -/
def is_alert_enabled (server : ServerTarget) (alert_type : String) : Bool :=
  match server.alert_config.lookup alert_type with
  | some b => b
  | none => false

/-- One line of `_has_errors`: a pipe-delimited record whose third stripped field,
lower-cased, differs from "ok".  The indicator sub-loop of the source returns true on
both of its branches, so the status test alone decides. -/
def line_has_error (error_indicators : List String) (line0 : List Char) : Bool :=
  if (py_strip line0).isEmpty then false
  else
    if 3 ≤ (((py_strip line0).splitOn '|').map py_strip).length then
      if ((((py_strip line0).splitOn '|').map py_strip).getD 2 []).map asciiLower
          ≠ "ok".toList then
        if error_indicators.any (fun ind => contains_sub ind.toList
            (((((py_strip line0).splitOn '|').map py_strip).getD 2 []).map asciiLower))
        then true
        else true
      else false
    else false

/-- `_has_errors(status_output, error_indicators)` from scheduler.py. -/
def has_errors (status_output : String) (error_indicators : List String) : Bool :=
  if status_output = "" then false
  else ((py_strip status_output.toList).splitOn '\n').any (line_has_error error_indicators)

/-- `_has_intrusion(intrusion_output)` from scheduler.py. -/
def has_intrusion (intrusion_output : String) : Bool :=
  if intrusion_output = "" then false
  else ["intrusion", "chassis open", "ns", "nc", "cr"].any
    (fun k => contains_sub k.toList (intrusion_output.toList.map asciiLower))

/-- `_has_critical_events(events_output)` from scheduler.py. -/
def has_critical_events (events_output : String) : Bool :=
  if events_output = "" then false
  else ["critical", "non-recoverable", "nr", "cr", "error"].any
    (fun k => contains_sub k.toList (events_output.toList.map asciiLower))

/-- Raw transport-level outcomes of the five non-connectivity telemetry queries used by
`_check_alerts` (an `error` is an IPMICommandError raised by `ipmitool`). -/
structure TelemetryRaw where
  memory : Except String String
  power : Except String String
  intrusion : Except String String
  voltage : Except String String
  events : Except String String

/-- The IPMIClient.query_* wrappers catch IPMICommandError and return the empty string
(ipmi.py lines 61-99). -/
def client_query : Except String String → String
  | .ok s => s
  | .error _ => ""

/-- The five non-connectivity alert kinds evaluated per cycle by `_check_alerts`. -/
inductive NCKind where
  | memory | power | intrusion | voltage | events
deriving DecidableEq

def NCKind.kind_name : NCKind → String
  | .memory => "memory_errors"
  | .power => "power_failure"
  | .intrusion => "intrusion"
  | .voltage => "voltage_issues"
  | .events => "system_events"

def NCKind.get_raw : NCKind → TelemetryRaw → Except String String
  | .memory, r => r.memory
  | .power, r => r.power
  | .intrusion, r => r.intrusion
  | .voltage, r => r.voltage
  | .events, r => r.events

def NCKind.set_raw : NCKind → TelemetryRaw → Except String String → TelemetryRaw
  | .memory, r, v => { r with memory := v }
  | .power, r, v => { r with power := v }
  | .intrusion, r, v => { r with intrusion := v }
  | .voltage, r, v => { r with voltage := v }
  | .events, r, v => { r with events := v }

/-- The per-kind condition detector applied to the query text. -/
def NCKind.detect : NCKind → String → Bool
  | .memory, s => has_errors s ["ns", "nc", "cr", "nr"]
  | .power, s => has_errors s ["ns", "nc", "cr", "nr"]
  | .intrusion, s => has_intrusion s
  | .voltage, s => has_errors s ["ns", "nc", "cr", "nr"]
  | .events, s => has_critical_events s

/-- The alert message built by each branch of `_check_alerts`. -/
def NCKind.msg : NCKind → String → String
  | .memory, s => "Memory errors detected:\n" ++ s
  | .power, s => "Power supply issue detected:\n" ++ s
  | .intrusion, s => "Chassis intrusion detected:\n" ++ s
  | .voltage, s => "Voltage issues detected:\n" ++ s
  | .events, s => "Critical system events detected:\n" ++ s

/-- One enabled/disabled check block of `_check_alerts`: when enabled, issue the query,
test `text and detector(text)`, then activate or clear accordingly.  The state is the
alert table plus the notifications sent and the queries issued so far. -/
def run_check (server : ServerTarget) (k : NCKind) (text : String) (now : ℚ)
    (acc : List ActiveAlert × List Notif × List String) :
    List ActiveAlert × List Notif × List String :=
  if is_alert_enabled server k.kind_name then
    if decide (text ≠ "") && k.detect text then
      match activate_alert acc.1 server.id k.kind_name (k.msg text) now with
      | Except.ok r => (r.1, acc.2.1 ++ r.2, acc.2.2 ++ [k.kind_name])
      | Except.error _ => (acc.1, acc.2.1, acc.2.2 ++ [k.kind_name])
    else
      ((clear_alert_if_active acc.1 server.id k.kind_name "auto" now).1,
       acc.2.1 ++ (clear_alert_if_active acc.1 server.id k.kind_name "auto" now).2,
       acc.2.2 ++ [k.kind_name])
  else acc

def nc_kinds : List NCKind := [.memory, .power, .intrusion, .voltage, .events]

/-- `_check_alerts(session, server, client)` from scheduler.py: nothing at all happens
without notification channels; otherwise the five checks run in order. -/
def check_alerts (server : ServerTarget) (raw : TelemetryRaw) (now : ℚ)
    (st : List ActiveAlert) : List ActiveAlert × List Notif × List String :=
  if server.notification_channel_ids = [] then (st, [], [])
  else nc_kinds.foldl
    (fun acc k => run_check server k (client_query (k.get_raw raw)) now acc) (st, [], [])

theorem activate_notif_shape (st : List ActiveAlert) (sid : Nat) (kind msg : String)
    (now : ℚ) (r : List ActiveAlert × List Notif)
    (hok : activate_alert st sid kind msg now = Except.ok r) :
    ∀ n ∈ r.2, n = ⟨kind, false, msg⟩ := by
  intro n hn
  cases hf : find_live st sid kind with
  | some a =>
    rw [activate_alert, hf] at hok
    cases hok
    simp at hn
  | none =>
    rw [activate_alert, hf] at hok
    by_cases ha : (find_any st sid kind).isSome = true
    · rw [if_pos ha] at hok
      exact absurd hok (by simp)
    · rw [if_neg ha] at hok
      cases hok
      simpa using hn

theorem clear_notif_shape (st : List ActiveAlert) (sid : Nat) (kind actor : String)
    (now : ℚ) : ∀ n ∈ (clear_alert_if_active st sid kind actor now).2,
      n.alert_type = kind ∧ n.is_cleared = true := by
  intro n hn
  cases hf : find_live st sid kind <;> rw [clear_alert_if_active, hf] at hn
  · simp at hn
  · simp only [List.mem_singleton] at hn
    subst hn
    exact ⟨rfl, rfl⟩

theorem run_check_notifs (server : ServerTarget) (k : NCKind) (text : String) (now : ℚ)
    (acc : List ActiveAlert × List Notif × List String) :
    ∀ n ∈ (run_check server k text now acc).2.1,
      n ∈ acc.2.1 ∨ (n.alert_type = k.kind_name ∧ (text = "" → n.is_cleared = true)) := by
  intro n hn
  rw [run_check] at hn
  by_cases hen : is_alert_enabled server k.kind_name = true
  · rw [if_pos hen] at hn
    by_cases hcond : (decide (text ≠ "") && k.detect text) = true
    · rw [if_pos hcond] at hn
      split at hn
      · rename_i r hact
        rcases List.mem_append.mp hn with h | h
        · exact Or.inl h
        · right
          have := activate_notif_shape _ _ _ _ _ r hact n h
          subst this
          refine ⟨rfl, ?_⟩
          intro hempty
          simp [hempty] at hcond
      · exact Or.inl hn
    · rw [if_neg hcond] at hn
      rcases List.mem_append.mp hn with h | h
      · exact Or.inl h
      · right
        have := clear_notif_shape _ _ _ _ _ n h
        exact ⟨this.1, fun _ => this.2⟩
  · rw [if_neg hen] at hn
    exact Or.inl hn

theorem fold_notifs (server : ServerTarget) (f : NCKind → String) (now : ℚ) :
    ∀ (ks : List NCKind) (acc : List ActiveAlert × List Notif × List String),
      ∀ n ∈ (ks.foldl (fun acc k => run_check server k (f k) now acc) acc).2.1,
        n ∈ acc.2.1 ∨ ∃ k ∈ ks, n.alert_type = k.kind_name ∧ (f k = "" → n.is_cleared = true) := by
  intro ks
  induction ks with
  | nil => intro acc n hn; exact Or.inl hn
  | cons k0 ks ih =>
    intro acc n hn
    rw [List.foldl_cons] at hn
    rcases ih _ n hn with h | ⟨k1, hk1, hprop⟩
    · rcases run_check_notifs server k0 (f k0) now acc n h with h | hprop
      · exact Or.inl h
      · exact Or.inr ⟨k0, by simp, hprop⟩
    · exact Or.inr ⟨k1, by simp [hk1], hprop⟩

theorem kind_name_inj : ∀ k1 k2 : NCKind, k1.kind_name = k2.kind_name → k1 = k2 := by
  intro k1 k2 h
  cases k1 <;> cases k2 <;> first
    | rfl
    | exact absurd h (by decide)

theorem client_query_set_raw_same (j k : NCKind) (raw : TelemetryRaw) (e : String) :
    client_query (j.get_raw (k.set_raw raw (Except.error e)))
      = client_query (j.get_raw (k.set_raw raw (Except.ok ""))) := by
  cases j <;> cases k <;> rfl

theorem get_raw_set_raw_same (k : NCKind) (raw : TelemetryRaw) (v : Except String String) :
    k.get_raw (k.set_raw raw v) = v := by
  cases k <;> rfl

/-- C4: a transport failure of one enabled non-connectivity query is swallowed: the whole
cycle behaves exactly as if that query had returned the empty string (so the remaining
checks still run and nothing crashes), and no activation notification of that kind is
emitted. -/
theorem C4_query_failure_swallowed (k : NCKind) (raw : TelemetryRaw) (e : String)
    (server : ServerTarget) (now : ℚ) (st : List ActiveAlert)
    (henabled : is_alert_enabled server k.kind_name = true) :
    check_alerts server (k.set_raw raw (Except.error e)) now st
      = check_alerts server (k.set_raw raw (Except.ok "")) now st ∧
    ∀ n ∈ (check_alerts server (k.set_raw raw (Except.error e)) now st).2.1,
      ¬ (n.alert_type = k.kind_name ∧ n.is_cleared = false) := by
  have hfun : (fun (acc : List ActiveAlert × List Notif × List String) (j : NCKind) =>
        run_check server j (client_query (j.get_raw (k.set_raw raw (Except.error e)))) now acc)
      = (fun acc j =>
        run_check server j (client_query (j.get_raw (k.set_raw raw (Except.ok "")))) now acc) := by
    funext acc j
    rw [client_query_set_raw_same j k raw e]
  constructor
  · simp only [check_alerts]
    rw [hfun]
  · intro n hn hbad
    by_cases hch : server.notification_channel_ids = []
    · rw [check_alerts, if_pos hch] at hn
      simp at hn
    · rw [check_alerts, if_neg hch] at hn
      rcases fold_notifs server _ now nc_kinds (st, [], []) n hn with h | ⟨k1, _, hty, hcl⟩
      · simp at h
      · have hk1 : k1 = k := kind_name_inj k1 k (hty.symm.trans hbad.1)
        subst hk1
        have hempty : client_query (k1.get_raw (k1.set_raw raw (Except.error e))) = "" := by
          rw [get_raw_set_raw_same]
          rfl
        have := hcl hempty
        rw [hbad.2] at this
        exact Bool.false_ne_true this

/-- A concrete entity for the C4 witness: memory alerts enabled, one channel. -/
def c4_server : ServerTarget :=
  { id := 4, name := "s4", vendor := "supermicro", fan_defaults := none,
    fan_overrides := [], notification_channel_ids := [1],
    alert_config := [("memory_errors", true), ("power_failure", true)],
    offline_alert_threshold_minutes := 15, last_successful_poll := none, created_at := 0 }

def c4_raw : TelemetryRaw :=
  { memory := Except.ok "DIMM1 | 04h | ok | 7.1 | ok", power := Except.ok "",
    intrusion := Except.ok "", voltage := Except.ok "", events := Except.ok "" }

/-- C4 witness: with memory alerts enabled, a failed memory query yields the same cycle
outcome as an empty successful one. -/
theorem C4_query_failure_swallowed_witness :
    check_alerts c4_server (NCKind.memory.set_raw c4_raw (Except.error "boom")) 0 []
      = check_alerts c4_server (NCKind.memory.set_raw c4_raw (Except.ok "")) 0 [] :=
  (C4_query_failure_swallowed NCKind.memory c4_raw "boom" c4_server 0 [] (by decide)).1

/-- C10: with an empty notification-channel list `_check_alerts` returns immediately: no
telemetry query is issued, no notification is sent and the alert table is untouched,
whatever the alert configuration says. -/
theorem C10_no_channels_skips_checks (server : ServerTarget) (raw : TelemetryRaw)
    (now : ℚ) (st : List ActiveAlert) (h : server.notification_channel_ids = []) :
    check_alerts server raw now st = (st, [], []) := by
  rw [check_alerts, if_pos h]

/-- A concrete entity for the C10 witness: every alert type enabled but no channels. -/
def c10_server : ServerTarget :=
  { id := 10, name := "s10", vendor := "supermicro", fan_defaults := none,
    fan_overrides := [], notification_channel_ids := [],
    alert_config := [("memory_errors", true), ("power_failure", true),
      ("intrusion", true), ("voltage_issues", true), ("system_events", true)],
    offline_alert_threshold_minutes := 15, last_successful_poll := none, created_at := 0 }

def c10_raw : TelemetryRaw :=
  { memory := Except.ok "DIMM1 | 04h | cr | 1 | fail", power := Except.ok "PS | 01h | nr | 1 | fail",
    intrusion := Except.ok "intrusion", voltage := Except.ok "12V | 30h | nc | 1 | fail",
    events := Except.ok "critical" }

/-- C10 witness: the theorem applied to the all-enabled no-channel entity with
error-laden telemetry. -/
theorem C10_no_channels_skips_checks_witness :
    check_alerts c10_server c10_raw 0 [] = ([], [], []) :=
  C10_no_channels_skips_checks c10_server c10_raw 0 [] rfl

/-- `server.offline_alert_threshold_minutes or 15`: Python `or` falls back to 15 when the
stored value is zero (or NULL). -/
def resolve_threshold (server : ServerTarget) : ℚ :=
  if server.offline_alert_threshold_minutes = 0 then 15
  else (server.offline_alert_threshold_minutes : ℚ)

/-- The per-server body of `_check_offline_servers` (scheduler.py lines 74-117), with
times in minutes and the interpolated diagnostic text abbreviated.  A server whose
connectivity alerting is disabled or which has no channels is skipped; a never-polled
server is alerted once old enough, but nothing is cleared below the threshold; a polled
server is alerted when stale and cleared when fresh. -/
def check_offline_one (now : ℚ) (st : List ActiveAlert) (server : ServerTarget) :
    Except String (List ActiveAlert × List Notif) :=
  if is_alert_enabled server "connectivity" = false then Except.ok (st, [])
  else if server.notification_channel_ids = [] then Except.ok (st, [])
  else
    match server.last_successful_poll with
    | none =>
      if resolve_threshold server ≤ now - server.created_at then
        activate_alert st server.id "connectivity"
          "Server has not responded since creation" now
      else Except.ok (st, [])
    | some last_poll =>
      if resolve_threshold server ≤ now - last_poll then
        activate_alert st server.id "connectivity" "Server has been offline" now
      else Except.ok (clear_alert_if_active st server.id "connectivity" "auto" now)

/-- `_check_offline_servers` over the whole server table: the function body has no
try/except, so a raised IntegrityError aborts the run and the remaining servers are not
processed (notifications already dispatched by earlier iterations have left the
process). -/
def check_offline_servers (now : ℚ) (servers : List ServerTarget)
    (st : List ActiveAlert) : Except String (List ActiveAlert × List Notif) :=
  servers.foldl (fun acc s =>
    match acc with
    | Except.error e => Except.error e
    | Except.ok r =>
      match check_offline_one now r.1 s with
      | Except.error e => Except.error e
      | Except.ok r2 => Except.ok (r2.1, r.2 ++ r2.2))
    (Except.ok (st, []))

/-- The success epilogue of `_poll_server` (scheduler.py lines 207-210): a successful
poll clears any live connectivity alert. -/
def poll_success_clear (server : ServerTarget) (st : List ActiveAlert) (now : ℚ) :
    List ActiveAlert × List Notif :=
  if is_alert_enabled server "connectivity" then
    clear_alert_if_active st server.id "connectivity" "auto" now
  else (st, [])

theorem find_live_update_touch (sid : Nat) (kind : String) (now : ℚ) :
    ∀ st : List ActiveAlert, (find_live st sid kind).isSome = true →
      (find_live (update_first_live sid kind (fun b => { b with last_updated_at := now })
        st) sid kind).isSome = true := by
  intro st
  induction st with
  | nil => intro h; simp [find_live] at h
  | cons b rest ih =>
    intro h
    by_cases hb : is_live_for sid kind b = true
    · rw [update_first_live, if_pos hb]
      have : is_live_for sid kind { b with last_updated_at := now } = true := by
        simp only [is_live_for] at hb ⊢
        exact hb
      rw [find_live, List.find?_cons_of_pos _ this]
      rfl
    · rw [update_first_live, if_neg hb]
      rw [find_live, List.find?_cons_of_neg _ (by simpa using hb)]
      rw [find_live, List.find?_cons_of_neg _ (by simpa using hb)] at h
      exact ih h

theorem activate_alert_ok_live (st : List ActiveAlert) (sid : Nat) (kind msg : String)
    (now : ℚ)
    (h : (find_live st sid kind).isSome = true ∨ find_any st sid kind = none) :
    ∃ r, activate_alert st sid kind msg now = Except.ok r ∧
      (find_live r.1 sid kind).isSome = true := by
  cases hf : find_live st sid kind with
  | some a =>
    rw [activate_alert, hf]
    refine ⟨_, rfl, ?_⟩
    exact find_live_update_touch sid kind now st (by rw [hf]; rfl)
  | none =>
    have hany : find_any st sid kind = none := by
      rcases h with h | h
      · rw [hf] at h; simp at h
      · exact h
    rw [activate_alert, hf, if_neg (by rw [hany]; simp)]
    refine ⟨_, rfl, ?_⟩
    simp only [find_live, List.find?_append]
    rw [show st.find? (is_live_for sid kind) = none from hf]
    simp [is_live_for]

theorem activate_alert_integrity (st : List ActiveAlert) (sid : Nat) (kind msg : String)
    (now : ℚ) (h1 : find_live st sid kind = none)
    (h2 : (find_any st sid kind).isSome = true) :
    activate_alert st sid kind msg now
      = Except.error "IntegrityError: UNIQUE constraint failed: uq_server_alert_type" := by
  rw [activate_alert, h1, if_pos h2]

theorem clear_gives_none (st : List ActiveAlert) (sid : Nat) (kind actor : String)
    (now : ℚ) (huniq : (st.filter (is_live_for sid kind)).length ≤ 1) :
    find_live (clear_alert_if_active st sid kind actor now).1 sid kind = none := by
  cases hf : find_live st sid kind with
  | none =>
    rw [clear_alert_if_active, hf]
    exact hf
  | some a =>
    rw [clear_alert_if_active, hf]
    exact find_live_update_clear sid kind now actor st a huniq hf

/-- The concrete state refuting C9 as stated: a never-polled entity 5 minutes old with a
15-minute threshold, connectivity alerting on, one channel, and a live connectivity
alert (raised earlier by a failed poll). -/
def c9_server : ServerTarget :=
  { id := 9, name := "s9", vendor := "supermicro", fan_defaults := none,
    fan_overrides := [], notification_channel_ids := [1],
    alert_config := [("connectivity", true)],
    offline_alert_threshold_minutes := 15, last_successful_poll := none, created_at := 0 }

def c9_live : ActiveAlert := ⟨9, "connectivity", "unreachable", 1, 1, none, none⟩

/-- C9 counterexample: the staleness monitor leaves the live connectivity alert of a
young never-polled entity untouched, although the claim's "otherwise any live
connectivity alert is cleared" requires it gone. -/
theorem C9_counterexample :
    is_alert_enabled c9_server "connectivity" = true ∧
    c9_server.notification_channel_ids ≠ [] ∧
    c9_server.last_successful_poll = none ∧
    (5 : ℚ) - c9_server.created_at < resolve_threshold c9_server ∧
    check_offline_one 5 [c9_live] c9_server = Except.ok ([c9_live], []) ∧
    ¬ (find_live [c9_live] 9 "connectivity" = none) := by
  have hth : ¬ (resolve_threshold c9_server ≤ (5 : ℚ) - c9_server.created_at) := by
    norm_num [resolve_threshold, c9_server]
  have h5 : check_offline_one 5 [c9_live] c9_server = Except.ok ([c9_live], []) := by
    rw [check_offline_one, if_neg (by decide), if_neg (by decide)]
    exact if_neg hth
  exact ⟨by decide, by decide, rfl, by norm_num [resolve_threshold, c9_server], h5,
    by decide⟩

/-- C9 amended: for an entity with connectivity alerting enabled and a channel, when the
elapsed time since the last successful poll (or since creation, if never polled)
reaches the threshold (the stored minutes, 15 when unset) the monitor activates a
connectivity alert — refreshed when one is live, created with a notification when the
key has no record at all, but raising IntegrityError (aborting the run, leaving no live
alert) when only a cleared record of the key exists; below the threshold a live
connectivity alert is cleared only for entities polled successfully before, and a
never-polled entity is left untouched; a subsequent successful poll clears the alert. -/
theorem C9_staleness (now : ℚ) (server : ServerTarget) (st : List ActiveAlert)
    (hen : is_alert_enabled server "connectivity" = true)
    (hch : server.notification_channel_ids ≠ [])
    (huniq : (st.filter (is_live_for server.id "connectivity")).length ≤ 1) :
    (∀ last, server.last_successful_poll = some last →
      (resolve_threshold server ≤ now - last →
        (((find_live st server.id "connectivity").isSome = true ∨
            find_any st server.id "connectivity" = none) →
          ∃ r, check_offline_one now st server = Except.ok r ∧
            (find_live r.1 server.id "connectivity").isSome = true) ∧
        (find_live st server.id "connectivity" = none →
          (find_any st server.id "connectivity").isSome = true →
          ∃ e, check_offline_one now st server = Except.error e)) ∧
      (now - last < resolve_threshold server →
        ∃ r, check_offline_one now st server = Except.ok r ∧
          find_live r.1 server.id "connectivity" = none)) ∧
    (server.last_successful_poll = none →
      (resolve_threshold server ≤ now - server.created_at →
        (((find_live st server.id "connectivity").isSome = true ∨
            find_any st server.id "connectivity" = none) →
          ∃ r, check_offline_one now st server = Except.ok r ∧
            (find_live r.1 server.id "connectivity").isSome = true) ∧
        (find_live st server.id "connectivity" = none →
          (find_any st server.id "connectivity").isSome = true →
          ∃ e, check_offline_one now st server = Except.error e)) ∧
      (now - server.created_at < resolve_threshold server →
        check_offline_one now st server = Except.ok (st, []))) ∧
    find_live (poll_success_clear server st now).1 server.id "connectivity" = none := by
  have hskip1 : ¬ (is_alert_enabled server "connectivity" = false) := by
    rw [hen]
    simp
  refine ⟨?_, ?_, ?_⟩
  · intro last hlast
    have hstep : check_offline_one now st server
        = if resolve_threshold server ≤ now - last then
            activate_alert st server.id "connectivity" "Server has been offline" now
          else Except.ok (clear_alert_if_active st server.id "connectivity" "auto" now) := by
      rw [check_offline_one, if_neg hskip1, if_neg hch, hlast]
    constructor
    · intro hstale
      constructor
      · intro hlive_or
        rw [hstep, if_pos hstale]
        exact activate_alert_ok_live st server.id "connectivity" _ now hlive_or
      · intro hnolive hany
        rw [hstep, if_pos hstale]
        exact ⟨_, activate_alert_integrity st server.id "connectivity" _ now hnolive hany⟩
    · intro hfresh
      rw [hstep, if_neg (not_le.mpr hfresh)]
      exact ⟨_, rfl, clear_gives_none st server.id "connectivity" "auto" now huniq⟩
  · intro hnever
    have hstep : check_offline_one now st server
        = if resolve_threshold server ≤ now - server.created_at then
            activate_alert st server.id "connectivity"
              "Server has not responded since creation" now
          else Except.ok (st, []) := by
      rw [check_offline_one, if_neg hskip1, if_neg hch, hnever]
    constructor
    · intro hstale
      constructor
      · intro hlive_or
        rw [hstep, if_pos hstale]
        exact activate_alert_ok_live st server.id "connectivity" _ now hlive_or
      · intro hnolive hany
        rw [hstep, if_pos hstale]
        exact ⟨_, activate_alert_integrity st server.id "connectivity" _ now hnolive hany⟩
    · intro hyoung
      rw [hstep, if_neg (not_le.mpr hyoung)]
  · rw [poll_success_clear, if_pos hen]
    exact clear_gives_none st server.id "connectivity" "auto" now huniq

/-- The scenario entity for the C9 witness: polled 20 minutes ago, threshold 15. -/
def c9w_server : ServerTarget :=
  { id := 12, name := "s12", vendor := "supermicro", fan_defaults := none,
    fan_overrides := [], notification_channel_ids := [1],
    alert_config := [("connectivity", true)],
    offline_alert_threshold_minutes := 15, last_successful_poll := some 0, created_at := 0 }

/-- C9 witness: at 20 minutes since the last successful poll of an entity with no prior
connectivity record the monitor activates (a live alert exists afterwards), and a
successful poll clears the table again. -/
theorem C9_staleness_witness :
    (∃ r, check_offline_one 20 [] c9w_server = Except.ok r ∧
      (find_live r.1 c9w_server.id "connectivity").isSome = true) ∧
    find_live (poll_success_clear c9w_server [c9_live] 20).1 c9w_server.id
      "connectivity" = none :=
  ⟨(((C9_staleness 20 c9w_server [] (by decide) (by decide) (by decide)).1 0 rfl).1
      (by norm_num [resolve_threshold, c9w_server])).1 (Or.inr rfl),
   (C9_staleness 20 c9w_server [c9_live] (by decide) (by decide) (by decide)).2.2⟩

/-- Python `str.split()` with no separator: split on whitespace runs, dropping empties. -/
def py_words (s : List Char) : List (List Char) :=
  (s.splitOnP isPySpace).filter (fun w => !w.isEmpty)

def digits_to_nat (ds : List Char) : Nat :=
  ds.foldl (fun a c => a * 10 + (c.toNat - 48)) 0

/-- The rational denoted by an integer digit run and a fractional digit run. -/
def dec_val (int frac : List Char) : ℚ :=
  (digits_to_nat (int ++ frac) : ℚ) / (10 : ℚ) ^ frac.length

/-- Exponent suffix of Python `float()` (the finite-decimal fragment these inputs
exercise; underscores, inf and nan are treated as unparseable). -/
def py_float_exp (v : ℚ) : List Char → Option ℚ
  | [] => some v
  | c :: r =>
    if c = 'e' || c = 'E' then
      match r with
      | '+' :: ds =>
        if !ds.isEmpty && ds.all Char.isDigit then some (v * 10 ^ digits_to_nat ds)
        else none
      | '-' :: ds =>
        if !ds.isEmpty && ds.all Char.isDigit then some (v / 10 ^ digits_to_nat ds)
        else none
      | ds =>
        if !ds.isEmpty && ds.all Char.isDigit then some (v * 10 ^ digits_to_nat ds)
        else none
    else none

def py_float_unsigned (s : List Char) : Option ℚ :=
  match s.dropWhile Char.isDigit with
  | '.' :: r =>
    if (s.takeWhile Char.isDigit).isEmpty && (r.takeWhile Char.isDigit).isEmpty then none
    else py_float_exp (dec_val (s.takeWhile Char.isDigit) (r.takeWhile Char.isDigit))
      (r.dropWhile Char.isDigit)
  | _ =>
    if (s.takeWhile Char.isDigit).isEmpty then none
    else py_float_exp (dec_val (s.takeWhile Char.isDigit) []) (s.dropWhile Char.isDigit)

/-- Python `float(token)` for the tokens this parser feeds it. -/
def py_float (s : List Char) : Option ℚ :=
  match s with
  | '+' :: r => py_float_unsigned r
  | '-' :: r => (py_float_unsigned r).map Neg.neg
  | _ => py_float_unsigned s

/-- Case-insensitive literal matcher: strip the (lower-case) needle off the front. -/
def strip_ci : List Char → List Char → Option (List Char)
  | [], s => some s
  | _ :: _, [] => none
  | d :: ds, c :: cs => if asciiLower c = d then strip_ci ds cs else none

/-- The greedy optional `s` of `degrees?`: taking it can never break a later match. -/
def skip_plural : List Char → List Char
  | [] => []
  | c :: t => if asciiLower c = 's' then t else c :: t

/-- Continuation `\s*degrees?\s*[cC]` of the temperature regex after the number. -/
def md_tail (val : ℚ) (r2 : List Char) : Option (ℚ × List Char) :=
  match strip_ci "degree".toList (r2.dropWhile isPySpace) with
  | none => none
  | some r4 =>
    match (skip_plural r4).dropWhile isPySpace with
    | [] => none
    | c :: r7 => if asciiLower c = 'c' then some (val, r7) else none

/-- Match `(\d+(?:\.\d+)?)\s*degrees?\s*C` (IGNORECASE) at the start of `s`, returning
the captured value and the remaining suffix.  The pattern is deterministic here: greedy
digit runs cannot profitably backtrack, and a fraction dot not followed by digits makes
the continuation fail outright. -/
def match_degrees_at (s : List Char) : Option (ℚ × List Char) :=
  if (s.takeWhile Char.isDigit).isEmpty then none
  else
    match s.dropWhile Char.isDigit with
    | '.' :: r =>
      if (r.takeWhile Char.isDigit).isEmpty then
        md_tail (dec_val (s.takeWhile Char.isDigit) []) ('.' :: r)
      else
        md_tail (dec_val (s.takeWhile Char.isDigit) (r.takeWhile Char.isDigit))
          (r.dropWhile Char.isDigit)
    | r1 => md_tail (dec_val (s.takeWhile Char.isDigit) []) r1

/-- `re.search` of the temperature pattern: the leftmost match's captured value. -/
def search_degrees : List Char → Option ℚ
  | [] => none
  | c :: t =>
    match match_degrees_at (c :: t) with
    | some (v, _) => some v
    | none => search_degrees t

/-- `re.findall` of the temperature pattern, fuelled: successive non-overlapping
leftmost matches.  Any fuel above the text length is enough (shown below). -/
def find_all_degrees_fuel : Nat → List Char → List ℚ
  | 0, _ => []
  | fuel + 1, s =>
    match match_degrees_at s with
    | some (v, rest) => v :: find_all_degrees_fuel fuel rest
    | none =>
      match s with
      | [] => []
      | _ :: t => find_all_degrees_fuel fuel t

def find_all_degrees (s : List Char) : List ℚ :=
  find_all_degrees_fuel (s.length + 1) s

/-- One iteration of the line loop in `_parse_cpu_temperature`: `none` means the loop
moves to the next line.  On a CPU/TEMP line with five pipe-separated fields whose last
field mentions "degrees", a float-parse failure of the first token `continue`s the
outer loop and the regex alternative is not tried for that line. -/
def line_result (line0 : List Char) : Option ℚ :=
  if contains_sub "CPU".toList ((py_strip line0).map asciiUpper)
      && contains_sub "TEMP".toList ((py_strip line0).map asciiUpper) then
    if 5 ≤ ((py_strip line0).splitOn '|').length then
      if contains_sub "degrees c".toList
            ((py_strip (((py_strip line0).splitOn '|').getLastD [])).map asciiLower)
          || contains_sub "degrees".toList
            ((py_strip (((py_strip line0).splitOn '|').getLastD [])).map asciiLower) then
        py_float ((py_words (py_strip (((py_strip line0).splitOn '|').getLastD []))).headD [])
      else search_degrees (py_strip line0)
    else search_degrees (py_strip line0)
  else none

/-- Python `max` over a non-empty list. -/
def max_list (m : ℚ) (ms : List ℚ) : ℚ := ms.foldl max m

/-- `_parse_cpu_temperature(temperature_output)` from scheduler.py. -/
def parse_cpu_temperature (temperature_output : String) : Option ℚ :=
  if temperature_output = "" then none
  else
    match ((py_strip temperature_output.toList).splitOn '\n').findSome? line_result with
    | some v => some v
    | none =>
      match find_all_degrees temperature_output.toList with
      | [] => none
      | m :: ms => some (max_list m ms)

/-- The fan commands `_poll_server` issues for a given raw temperature text: an
unparseable text means no fan action at all. -/
def poll_fan_commands (server : ServerTarget) (temperature_output : String) :
    List (Int × Option String) :=
  match parse_cpu_temperature temperature_output with
  | none => []
  | some t => fan_commands server t

/-- The temperature-critical step of `_poll_server`: `some true` activates, `some false`
clears, `none` does nothing (unparseable text or alert disabled). -/
def temp_critical_action (server : ServerTarget) (temperature_output : String) :
    Option Bool :=
  match parse_cpu_temperature temperature_output with
  | none => none
  | some t =>
    if is_alert_enabled server "temperature_critical" then some (decide ((80 : ℚ) ≤ t))
    else none

theorem length_dropWhile_le (p : Char → Bool) (l : List Char) :
    (l.dropWhile p).length ≤ l.length := by
  have h := congrArg List.length (List.takeWhile_append_dropWhile (p := p) (l := l))
  rw [List.length_append] at h
  omega

theorem length_dropWhile_lt (p : Char → Bool) (l : List Char)
    (h : ¬ (l.takeWhile p).isEmpty = true) : (l.dropWhile p).length < l.length := by
  have hlen := congrArg List.length (List.takeWhile_append_dropWhile (p := p) (l := l))
  rw [List.length_append] at hlen
  have : 0 < (l.takeWhile p).length := by
    cases hl : l.takeWhile p with
    | nil => rw [hl] at h; simp at h
    | cons a t => simp
  omega

theorem strip_ci_length : ∀ (ds cs r : List Char), strip_ci ds cs = some r →
    r.length ≤ cs.length := by
  intro ds
  induction ds with
  | nil =>
    intro cs r h
    rw [strip_ci] at h
    rw [← Option.some.inj h]
  | cons d ds ih =>
    intro cs r h
    cases cs with
    | nil => simp [strip_ci] at h
    | cons c cs =>
      rw [strip_ci] at h
      by_cases hc : asciiLower c = d
      · rw [if_pos hc] at h
        exact Nat.le_succ_of_le (ih cs r h)
      · rw [if_neg hc] at h
        simp at h

theorem skip_plural_length (r : List Char) : (skip_plural r).length ≤ r.length := by
  cases r with
  | nil => simp [skip_plural]
  | cons c t =>
    rw [skip_plural]
    by_cases hc : asciiLower c = 's'
    · rw [if_pos hc]; simp
    · rw [if_neg hc]

theorem md_tail_length (v : ℚ) (r2 : List Char) (v2 : ℚ) (rest : List Char)
    (h : md_tail v r2 = some (v2, rest)) : rest.length < r2.length := by
  rw [md_tail] at h
  split at h
  · simp at h
  · rename_i r4 hstrip
    split at h
    · simp at h
    · rename_i c r7 hr6
      split at h
      · have hrest : rest = r7 := (congrArg Prod.snd (Option.some.inj h)).symm
        subst hrest
        have h1 : rest.length < ((skip_plural r4).dropWhile isPySpace).length := by
          rw [hr6]; simp
        have h2 := length_dropWhile_le isPySpace (skip_plural r4)
        have h3 := skip_plural_length r4
        have h4 := strip_ci_length _ _ _ hstrip
        have h5 := length_dropWhile_le isPySpace r2
        omega
      · simp at h

theorem match_degrees_at_length (s : List Char) (v : ℚ) (rest : List Char)
    (h : match_degrees_at s = some (v, rest)) : rest.length < s.length := by
  rw [match_degrees_at] at h
  split at h
  · exact absurd h (by simp)
  · rename_i hint
    have hdroplt := length_dropWhile_lt Char.isDigit s hint
    split at h
    · rename_i r heq
      split at h
      · have hmd := md_tail_length _ _ _ _ h
        rw [heq] at hdroplt
        simp only [List.length_cons] at hmd hdroplt
        omega
      · have hmd := md_tail_length _ _ _ _ h
        have h2 := length_dropWhile_le Char.isDigit r
        rw [heq] at hdroplt
        simp only [List.length_cons] at hdroplt
        omega
    · have hmd := md_tail_length _ _ _ _ h
      omega

theorem find_all_degrees_fuel_succ (fuel : Nat) (s : List Char) :
    find_all_degrees_fuel (fuel + 1) s
      = match match_degrees_at s with
        | some (v, rest) => v :: find_all_degrees_fuel fuel rest
        | none =>
          match s with
          | [] => []
          | _ :: t => find_all_degrees_fuel fuel t := rfl

theorem find_all_degrees_fuel_irrel :
    ∀ (f1 f2 : Nat) (s : List Char), s.length < f1 → s.length < f2 →
      find_all_degrees_fuel f1 s = find_all_degrees_fuel f2 s := by
  intro f1
  induction f1 with
  | zero => intro f2 s h1; omega
  | succ f1 ih =>
    intro f2 s h1 h2
    cases f2 with
    | zero => omega
    | succ f2 =>
      cases hm : match_degrees_at s with
      | some vr =>
        obtain ⟨v, rest⟩ := vr
        have hlt := match_degrees_at_length s v rest hm
        simp only [find_all_degrees_fuel_succ, hm]
        rw [ih f2 rest (by omega) (by omega)]
      | none =>
        cases s with
        | nil => simp [find_all_degrees_fuel_succ, hm]
        | cons c t =>
          simp only [find_all_degrees_fuel_succ, hm]
          have ht : t.length < f1 ∧ t.length < f2 := by
            simp only [List.length_cons] at h1 h2
            omega
          exact ih f2 t ht.1 ht.2

theorem max_list_spec (ms : List ℚ) : ∀ m : ℚ,
    max_list m ms ∈ m :: ms ∧ ∀ x ∈ m :: ms, x ≤ max_list m ms := by
  induction ms with
  | nil =>
    intro m
    simp [max_list]
  | cons y ms ih =>
    intro m
    have hfold : max_list m (y :: ms) = max_list (max m y) ms := rfl
    rcases ih (max m y) with ⟨hmem, hle⟩
    constructor
    · rw [hfold]
      rcases List.mem_cons.mp hmem with h | h
      · rcases max_choice m y with hc | hc
        · nth_rewrite 2 [hc] at h
          exact List.mem_cons.mpr (Or.inl h)
        · nth_rewrite 2 [hc] at h
          exact List.mem_cons.mpr (Or.inr (List.mem_cons.mpr (Or.inl h)))
      · exact List.mem_cons.mpr (Or.inr (List.mem_cons.mpr (Or.inr h)))
    · intro x hx
      rw [hfold]
      rcases List.mem_cons.mp hx with h | h
      · subst h
        exact le_trans (le_max_left x y) (hle _ (List.mem_cons.mpr (Or.inl rfl)))
      · rcases List.mem_cons.mp h with h | h
        · subst h
          exact le_trans (le_max_right m x) (hle _ (List.mem_cons.mpr (Or.inl rfl)))
        · exact hle x (List.mem_cons.mpr (Or.inr h))

/-- C8: the CPU-temperature parser returns the first CPU/TEMP line's parsed value when
one parses; otherwise the maximum over every "number degrees C" occurrence in the whole
text; otherwise `none`; lines without both CPU and TEMP are never consulted by the line
loop; and an unparseable text makes the caller skip all fan commands and the
temperature-critical step. -/
theorem C8_parse_cpu_temperature (s : String) :
    (∀ v, ((py_strip s.toList).splitOn '\n').findSome? line_result = some v →
      parse_cpu_temperature s = some v) ∧
    (((py_strip s.toList).splitOn '\n').findSome? line_result = none →
      find_all_degrees s.toList ≠ [] →
      ∃ v, parse_cpu_temperature s = some v ∧ v ∈ find_all_degrees s.toList ∧
        ∀ m ∈ find_all_degrees s.toList, m ≤ v) ∧
    (((py_strip s.toList).splitOn '\n').findSome? line_result = none →
      find_all_degrees s.toList = [] → parse_cpu_temperature s = none) ∧
    (∀ line, ¬ (contains_sub "CPU".toList ((py_strip line).map asciiUpper) = true ∧
        contains_sub "TEMP".toList ((py_strip line).map asciiUpper) = true) →
      line_result line = none) ∧
    (∀ server : ServerTarget, parse_cpu_temperature s = none →
      poll_fan_commands server s = [] ∧ temp_critical_action server s = none) := by
  have hempty_lines : ((py_strip ("" : String).toList).splitOn '\n').findSome? line_result
      = none := rfl
  refine ⟨?_, ?_, ?_, ?_, ?_⟩
  · intro v hline
    by_cases hs : s = ""
    · rw [hs] at hline
      rw [hempty_lines] at hline
      exact absurd hline (by simp)
    · rw [parse_cpu_temperature, if_neg hs, hline]
  · intro hnone hsome
    by_cases hs : s = ""
    · exact absurd (by rw [hs]; rfl) hsome
    · rw [parse_cpu_temperature, if_neg hs, hnone]
      cases hall : find_all_degrees s.toList with
      | nil => exact absurd hall hsome
      | cons m ms =>
        rcases max_list_spec ms m with ⟨hmem, hle⟩
        exact ⟨max_list m ms, rfl, hmem, hle⟩
  · intro hnone hall
    by_cases hs : s = ""
    · rw [parse_cpu_temperature, if_pos hs]
    · rw [parse_cpu_temperature, if_neg hs, hnone, hall]
  · intro line hline
    rw [line_result]
    rw [if_neg ?_]
    intro hand
    rcases Bool.and_eq_true _ _ |>.mp hand with ⟨h1, h2⟩
    exact hline ⟨h1, h2⟩
  · intro server hparse
    rw [poll_fan_commands, hparse, temp_critical_action, hparse]
    exact ⟨rfl, rfl⟩

/-- C8 witness: on a text with no temperature data the parser returns `none` and the
caller issues no fan command and no temperature-critical action; a pipe row without CPU
and TEMP is skipped by the line loop. -/
theorem C8_parse_cpu_temperature_witness :
    (poll_fan_commands c5_server "no temperature data" = [] ∧
      temp_critical_action c5_server "no temperature data" = none) ∧
    line_result "Ambient | 30h | ok | 7.1 | 40 degrees C".toList = none :=
  ⟨(C8_parse_cpu_temperature "no temperature data").2.2.2.2 c5_server (by decide),
   (C8_parse_cpu_temperature "x").2.2.2.1 "Ambient | 30h | ok | 7.1 | 40 degrees C".toList
     (by decide)⟩
